import Mathlib

/-!
Verification development for the model-registration / retrieval workflow
(`register` / `from_pretrained`) of `vertexai/preview/_workflow/shared/model_utils.py`.

The Python module is shallowly embedded: every function of the module becomes a
Lean definition of the same name; the external collaborators that the module
calls (serializer, remote resource service, global configuration, prebuilt
container registry, driver unwrapper) are modelled as explicit data that is
threaded through the definitions.  Exceptions become `Except PyErr`; the
in-place mutation of the model object (unwrap / rewrap) becomes explicit state
passing; the object store written by the serializer becomes an association
list keyed by (trailing-separator-normalised) paths.
-/

/-! ## String helpers

All string computations are done on the underlying character list so that
every definition reduces by structural recursion (no well-founded recursion),
keeping everything evaluable by `decide` and `rfl`. -/

/-- Python `s.startswith(pat)`. -/
def strStartsWith (s pat : String) : Bool :=
  pat.data.isPrefixOf s.data

/-- Does the string end with the given suffix (used for path-separator
handling in `pathJoin` and `normPath`). -/
def strEndsWith (s pat : String) : Bool :=
  pat.data.reverse.isPrefixOf s.data.reverse

/-- Python `pat in s` (substring containment), as used by
`"torch" in model.__module__`, `"tf" in container_image_uri`, and
`"/" not in short_model_name`. -/
def strContains (s pat : String) : Bool :=
  s.data.tails.any (fun t => pat.data.isPrefixOf t)

/-- Drop the last character of a string (helper for `normPath`). -/
def strDropLast (s : String) : String :=
  ⟨s.data.dropLast⟩

/-- Python truthiness of an optional string: `None` and `""` are falsy,
every other string is truthy.  Used for `if not staging_bucket`,
`if model_name:` and the label check in `_verify_custom_job`. -/
def pyStrTruthy : Option String → Bool
  | none => false
  | some s => !(s.data.isEmpty)

/-- Python `os.path.join` restricted to the two-argument POSIX form used
throughout the module.  `os.path.join(a, "")` yields `a + "/"`, and a second
argument that is absolute replaces the first. -/
def pathJoin (a b : String) : String :=
  if strStartsWith b "/" then b
  else if a.data.isEmpty then b
  else if strEndsWith a "/" then a ++ b
  else a ++ "/" ++ b

/-- Normalise a path for use as an object-store key: a trailing separator
(`os.path.join(dir, "")` produces one) addresses the same stored object as
the bare path.  This encodes the assumption of the round-trip law that the
remote object store resolves `dir/` and `dir` to the same artifact. -/
def normPath (p : String) : String :=
  if strEndsWith p "/" then strDropLast p else p

/-- First-match association-list lookup: Python `dict.get` on the label maps
and the fetch-by-name calls of the remote service. -/
def assocGet {α : Type} (l : List (String × α)) (k : String) : Option α :=
  match l with
  | [] => none
  | (k2, v) :: rest => if k2 == k then some v else assocGet rest k

/-! ## Data model -/

/-- The three supported frameworks. -/
inductive Framework where
  | sklearn
  | tensorflow
  | pytorch
deriving DecidableEq

/-- Python exceptions raised or propagated by the module.  The module's own
errors are all `ValueError`s carrying a message; failures of the external
collaborators (serializer, remote calls, missing resources, wrongly-typed
deserialized objects) are kept as distinct constructors so that
"surfaces unmodified to the caller" is expressible. -/
inductive PyErr where
  | valueError (msg : String)
  | serializerError
  | remoteError
  | notFoundError
  | typeMismatchError
deriving DecidableEq

deriving instance DecidableEq for Except

/-- A Rewrapper value: the serializable closure produced when the
remote-execution wrapper is detached from a model, capturing what must be
reapplied.  `restore = none` means the model had no wrapper attached. -/
structure Rewrapper where
  restore : Option Nat
deriving DecidableEq

/-- A local in-process model object.  `module` is `model.__module__`;
`hasTrackingMetadata` is `hasattr(model, "_tracking_metadata")`;
`hasStateDict` is `hasattr(model, "state_dict")`; `content` is the opaque
trained content; `wrapper` is the currently attached remote-execution
wrapper (if any). -/
structure ModelObj where
  module : String
  hasTrackingMetadata : Bool
  hasStateDict : Bool
  content : Nat
  wrapper : Option Nat
deriving DecidableEq

/-- Reapply a Rewrapper to a model (Python `rewrapper(model)`, which mutates
the model in place). -/
def applyRewrapper (r : Rewrapper) (m : ModelObj) : ModelObj :=
  { m with wrapper := r.restore }

/-- Modelled from the spec: `driver._unwrapper`
(`vertexai.preview._workflow.driver`) is not under `src/`.  Per the spec it
extracts and detaches any remote-execution wrapper from the model and
produces a Rewrapper value that reapplies it. -/
def _unwrapper (m : ModelObj) : ModelObj × Rewrapper :=
  ({ m with wrapper := none }, ⟨m.wrapper⟩)

/-- A value held in the object store: either a serialized model object or a
serialized Rewrapper. -/
inductive PyVal where
  | modelVal (m : ModelObj)
  | rewrapperVal (r : Rewrapper)
deriving DecidableEq

/-- The object store written by the external serializer, keyed by
normalised path. -/
def Store : Type := List (String × PyVal)

/-- Write an object at a path (the external serializer's `serialize`). -/
def storePut (st : Store) (path : String) (v : PyVal) : Store :=
  (normPath path, v) :: st

/-- Read the object at a path (the external serializer's `deserialize`). -/
def storeGet (st : Store) (path : String) : Option PyVal :=
  assocGet st (normPath path)

/-- A registered remote Model resource: display name (used as the resource
name under which the registry serves it back), artifact URI, serving
container image URI, and labels. -/
structure RegisteredModel where
  name : String
  uri : String
  container_image_uri : String
  labels : List (String × String)
deriving DecidableEq

/-- The remote state touched by `register`: the object store and the model
registry. -/
structure World where
  store : Store
  registry : List (String × RegisteredModel)

/-- The process-wide configuration read by `register`
(`vertexai.preview.global_config`). -/
structure GlobalConfig where
  staging_bucket : Option String

/-- Modelled from the spec: the external collaborators of `register` that can
fail are not under `src/` — the serializer's `serialize` and the remote
`aiplatform.Model.upload` call.  `serializeOk p` says whether serializing to
path `p` succeeds, `uploadOk` whether the blocking upload succeeds. -/
structure Env where
  serializeOk : String → Bool
  uploadOk : Bool

/-- Observable events of a `register` call, used to state the scoped
unwrap/rewrap discipline. -/
inductive Event where
  | unwrap
  | rewrap
  | serialize (path : String)
  | upload (name : String)
deriving DecidableEq

/-- Result of one of the `_register_*_model` helpers. -/
structure DispatchResult where
  result : Except PyErr RegisteredModel
  world : World
  trace : List Event

/-- Result of `register`: the returned value or exception, the remote state,
the model object as the caller sees it afterwards, and the event trace. -/
structure RegResult where
  result : Except PyErr RegisteredModel
  world : World
  model : ModelObj
  trace : List Event

/-! ## Constants of the module -/

def _SKLEARN_FILE_NAME : String := "model.pkl"
def _TF_DIR_NAME : String := "saved_model"
def _PYTORCH_FILE_NAME : String := "model.mar"
def _REWRAPPER_NAME : String := "rewrapper"
def _OUTPUT_DIR : String := "output"
def _OUTPUT_ESTIMATOR_DIR : String := "output_estimator"

def stagingBucketMsg : String :=
  "A default staging bucket is required to upload the model file. Please call vertexai.init(staging_bucket=gs://my-bucket)."
def uploadUnsupportedMsg : String :=
  "Support uploading PyTorch, scikit-learn and TensorFlow only."
def loadUnsupportedMsg : String :=
  "Support loading PyTorch, scikit-learn and TensorFlow only."
def exactlyOneMsg : String :=
  "Exactly one of [model_name, custom_job_name, foundation_model_name] must be provided to from_pretrained."
def unverifiedJobMsg : String :=
  "This job was not created with SDK remote training, or it was created with a Vertex SDK version <= 1.32.0"
def jobNotSucceededMsg : String :=
  "The provided job did not complete successfully. Please provide a pending or successful customJob ID."
def invalidModelGardenMsg : String :=
  "Please provide a valid Model Garden model resource."
def notRegisteredMsg (model_name : String) : String :=
  "The model " ++ model_name ++ " was not registered through vertexai.preview.register or created from Model Garden."
def notModelGardenMsg (model_name : String) : String :=
  "The model " ++ model_name ++ " was not created from a Model Garden model."

/-! ## Serving container resolution -/

/-- Replace the dots of a framework version by dashes, as the prebuilt image
tags do (`1.0` becomes `1-0`). -/
def versionTag (v : String) : String :=
  ⟨v.data.map (fun c => if c == '.' then '-' else c)⟩

/-- Modelled from the spec:
`aiplatform.helpers.get_prebuilt_prediction_container_uri` is not under
`src/`.  Per the spec it resolves a prebuilt serving-container image URI from
the framework, the pinned version and the accelerator selector; the published
prediction images for tensorflow carry the tag component `tf2` (so the
tensorflow URI contains the substring `tf`, which the retrieval side keys
on), while sklearn and pytorch images carry their framework name. -/
def get_prebuilt_prediction_container_uri
    (framework : String) (framework_version : String) (accelerator : String) :
    String :=
  let frameworkTag := if framework == "tensorflow" then "tf2" else framework
  "us-docker.pkg.dev/vertex-ai/prediction/" ++ frameworkTag ++ "-" ++
    accelerator ++ "." ++ versionTag framework_version ++ ":latest"

/-! ## register -/

/-- `_register_sklearn_model`: serialize the rewrapper, then the model file
`model.pkl`, under a fresh staging subdirectory; resolve the sklearn 1.0
container (the Python call site passes no accelerator, so the helper's
default `"cpu"` is used); upload with the `registered_by_vertex_ai=true`
label. -/
def _register_sklearn_model (env : Env) (model : ModelObj)
    (staging_bucket : String) (rewrapper : Rewrapper) (uniq : String)
    (w : World) : DispatchResult :=
  let unique_model_name := "vertex-ai-registered-sklearn-model-" ++ uniq
  let gcs_dir := pathJoin staging_bucket unique_model_name
  let rewrapper_path := pathJoin gcs_dir _REWRAPPER_NAME
  if !env.serializeOk rewrapper_path then
    ⟨.error .serializerError, w, [.serialize rewrapper_path]⟩
  else
    let w1 : World := { w with store := storePut w.store rewrapper_path (.rewrapperVal rewrapper) }
    let model_path := pathJoin gcs_dir _SKLEARN_FILE_NAME
    if !env.serializeOk model_path then
      ⟨.error .serializerError, w1, [.serialize rewrapper_path, .serialize model_path]⟩
    else
      let w2 : World := { w1 with store := storePut w1.store model_path (.modelVal model) }
      let container_image_uri := get_prebuilt_prediction_container_uri "sklearn" "1.0" "cpu"
      if !env.uploadOk then
        ⟨.error .remoteError, w2,
          [.serialize rewrapper_path, .serialize model_path, .upload unique_model_name]⟩
      else
        let rm : RegisteredModel :=
          ⟨unique_model_name, gcs_dir, container_image_uri, [("registered_by_vertex_ai", "true")]⟩
        ⟨.ok rm, { w2 with registry := (unique_model_name, rm) :: w2.registry },
          [.serialize rewrapper_path, .serialize model_path, .upload unique_model_name]⟩

/-- `_register_tf_model`: the rewrapper is serialized nested inside the
`saved_model` directory, the model to the `saved_model` directory itself,
and — unlike the other two frameworks — the uploaded `artifact_uri` is the
`saved_model` directory, not its parent. -/
def _register_tf_model (env : Env) (model : ModelObj)
    (staging_bucket : String) (rewrapper : Rewrapper) (use_gpu : Bool)
    (uniq : String) (w : World) : DispatchResult :=
  let unique_model_name := "vertex-ai-registered-tensorflow-model-" ++ uniq
  let gcs_dir := pathJoin staging_bucket unique_model_name
  let rewrapper_path := pathJoin gcs_dir (_TF_DIR_NAME ++ "/" ++ _REWRAPPER_NAME)
  if !env.serializeOk rewrapper_path then
    ⟨.error .serializerError, w, [.serialize rewrapper_path]⟩
  else
    let w1 : World := { w with store := storePut w.store rewrapper_path (.rewrapperVal rewrapper) }
    let model_path := pathJoin gcs_dir _TF_DIR_NAME
    if !env.serializeOk model_path then
      ⟨.error .serializerError, w1, [.serialize rewrapper_path, .serialize model_path]⟩
    else
      let w2 : World := { w1 with store := storePut w1.store model_path (.modelVal model) }
      let container_image_uri :=
        get_prebuilt_prediction_container_uri "tensorflow" "2.11"
          (if use_gpu then "gpu" else "cpu")
      if !env.uploadOk then
        ⟨.error .remoteError, w2,
          [.serialize rewrapper_path, .serialize model_path, .upload unique_model_name]⟩
      else
        let rm : RegisteredModel :=
          ⟨unique_model_name, model_path, container_image_uri, [("registered_by_vertex_ai", "true")]⟩
        ⟨.ok rm, { w2 with registry := (unique_model_name, rm) :: w2.registry },
          [.serialize rewrapper_path, .serialize model_path, .upload unique_model_name]⟩

/-- `_register_pytorch_model`: rewrapper as a sibling file, model as the
archive `model.mar`, artifact URI is the staging subdirectory. -/
def _register_pytorch_model (env : Env) (model : ModelObj)
    (staging_bucket : String) (rewrapper : Rewrapper) (use_gpu : Bool)
    (uniq : String) (w : World) : DispatchResult :=
  let unique_model_name := "vertex-ai-registered-pytorch-model-" ++ uniq
  let gcs_dir := pathJoin staging_bucket unique_model_name
  let rewrapper_path := pathJoin gcs_dir _REWRAPPER_NAME
  if !env.serializeOk rewrapper_path then
    ⟨.error .serializerError, w, [.serialize rewrapper_path]⟩
  else
    let w1 : World := { w with store := storePut w.store rewrapper_path (.rewrapperVal rewrapper) }
    let archive_path := pathJoin gcs_dir _PYTORCH_FILE_NAME
    if !env.serializeOk archive_path then
      ⟨.error .serializerError, w1, [.serialize rewrapper_path, .serialize archive_path]⟩
    else
      let w2 : World := { w1 with store := storePut w1.store archive_path (.modelVal model) }
      let container_image_uri :=
        get_prebuilt_prediction_container_uri "pytorch" "1.12"
          (if use_gpu then "gpu" else "cpu")
      if !env.uploadOk then
        ⟨.error .remoteError, w2,
          [.serialize rewrapper_path, .serialize archive_path, .upload unique_model_name]⟩
      else
        let rm : RegisteredModel :=
          ⟨unique_model_name, gcs_dir, container_image_uri, [("registered_by_vertex_ai", "true")]⟩
        ⟨.ok rm, { w2 with registry := (unique_model_name, rm) :: w2.registry },
          [.serialize rewrapper_path, .serialize archive_path, .upload unique_model_name]⟩

/-- The framework dispatch inside `register`'s `try` block, in source order:
`model.__module__.startswith("sklearn")`; then
`model.__module__.startswith("keras") or hasattr(model, "_tracking_metadata")`;
then `"torch" in model.__module__ or hasattr(model, "state_dict")`; else
raise the unsupported-framework `ValueError`. -/
def registerDispatch (env : Env) (staging_bucket : String) (model : ModelObj)
    (rewrapper : Rewrapper) (use_gpu : Bool) (uniq : String) (w : World) :
    DispatchResult :=
  if strStartsWith model.module "sklearn" then
    _register_sklearn_model env model staging_bucket rewrapper uniq w
  else if strStartsWith model.module "keras" || model.hasTrackingMetadata then
    _register_tf_model env model staging_bucket rewrapper use_gpu uniq w
  else if strContains model.module "torch" || model.hasStateDict then
    _register_pytorch_model env model staging_bucket rewrapper use_gpu uniq w
  else
    ⟨.error (.valueError uploadUnsupportedMsg), w, []⟩

/-- `register`: check the staging bucket, unwrap the model, dispatch on the
framework, and — in a `finally` block — reapply the rewrapper to the model
before the result (value or exception) reaches the caller.  `uniq` stands
for `utils.timestamped_unique_name()`. -/
def register (env : Env) (cfg : GlobalConfig) (model : ModelObj)
    (use_gpu : Bool) (uniq : String) (w : World) : RegResult :=
  if !pyStrTruthy cfg.staging_bucket then
    ⟨.error (.valueError stagingBucketMsg), w, model, []⟩
  else
    let staging_bucket := cfg.staging_bucket.getD ""
    let unwrapped := (_unwrapper model).1
    let rewrapper := (_unwrapper model).2
    let d := registerDispatch env staging_bucket unwrapped rewrapper use_gpu uniq w
    ⟨d.result, d.world, applyRewrapper rewrapper unwrapped, .unwrap :: (d.trace ++ [.rewrap])⟩

/-! ## from_pretrained -/

/-- A publisher (Model Garden) model resource. -/
structure PublisherModel where
  resource_name : String
deriving DecidableEq

/-- The handle built by `_model_garden_models._from_pretrained`: the model
name it was asked for, the resolved publisher model, and the tuned vertex
model when coming from the tuned-model scan. -/
structure GardenHandle where
  model_name : String
  publisher_model : PublisherModel
  tuned_vertex_model : Option RegisteredModel
deriving DecidableEq

/-- What `from_pretrained` returns: a local deserialized model object, or a
Model Garden handle. -/
inductive Loaded where
  | localModel (m : ModelObj)
  | garden (h : GardenHandle)
deriving DecidableEq

/-- Job states of the remote training job. -/
inductive JobState where
  | queued
  | pending
  | running
  | succeeded
  | failed
  | cancelled
deriving DecidableEq

/-- Modelled from the spec: `aiplatform_jobs._JOB_PENDING_STATES` is not
under `src/`; per the spec these are the pending/running (non-terminal)
states of a training job. -/
def _JOB_PENDING_STATES : List JobState :=
  [.queued, .pending, .running]

/-- A remote CustomJob resource: name, labels, current state, and
`job.job_spec.base_output_directory.output_uri_prefix`. -/
structure CustomJob where
  name : String
  labels : List (String × String)
  state : JobState
  base_output_directory : String
deriving DecidableEq

/-- Modelled from the spec: the collaborators of `from_pretrained` that are
not under `src/`.  `registry`, `jobs` and `store` are the remote resource
service and object store; `resolvePublisher` is the
`_publisher_models._PublisherModel` constructor (which raises on an unknown
resource); `getModelIdFromTuningId` is
`_language_models._get_model_id_from_tuning_model_id` (per the spec, mapping
a tuned-model label value to a catalog model id); `gardenFromPretrained` is
`_model_garden_models._from_pretrained` (per the spec, building the
foundation/tuned model handle); `pollFinalState` is the job state observed
after `training._get_remote_logs_until_complete` returns (per the spec, the
blocking poll returns once the job is terminal). -/
structure FetchEnv where
  registry : List (String × RegisteredModel)
  jobs : List (String × CustomJob)
  store : Store
  resolvePublisher : String → Except PyErr PublisherModel
  getModelIdFromTuningId : String → String
  gardenFromPretrained : String → PublisherModel → Option RegisteredModel → Except PyErr GardenHandle
  pollFinalState : String → JobState

/-- The serializer's `deserialize` at a path, expected to yield a model. -/
def deserializeModel (st : Store) (path : String) : Except PyErr ModelObj :=
  match storeGet st path with
  | some (.modelVal m) => .ok m
  | some _ => .error .typeMismatchError
  | none => .error .serializerError

/-- The serializer's `deserialize` at a path, expected to yield a
Rewrapper. -/
def deserializeRewrapper (st : Store) (path : String) : Except PyErr Rewrapper :=
  match storeGet st path with
  | some (.rewrapperVal r) => .ok r
  | some _ => .error .typeMismatchError
  | none => .error .serializerError

/-- `_get_model_file_from_image_uri`: substring checks on the container
image URI, in source order `tf`, `sklearn`, `pytorch`. -/
def _get_model_file_from_image_uri (container_image_uri : String) :
    Except PyErr String :=
  if strContains container_image_uri "tf" then .ok ""
  else if strContains container_image_uri "sklearn" then .ok _SKLEARN_FILE_NAME
  else if strContains container_image_uri "pytorch" then .ok _PYTORCH_FILE_NAME
  else .error (.valueError loadUnsupportedMsg)

/-- `_verify_custom_job`: raise unless the job carries the label
`trained_by_vertex_ai` with the exact value `"true"` (the Python condition is
`not labels.get(...) or labels.get(...) != "true"`). -/
def _verify_custom_job (job : CustomJob) : Except PyErr Unit :=
  let lbl := assocGet job.labels "trained_by_vertex_ai"
  if !pyStrTruthy lbl || !(lbl == some "true") then
    .error (.valueError unverifiedJobMsg)
  else
    .ok ()

/-- `_generate_remote_job_output_path`. -/
def _generate_remote_job_output_path (base_gcs_dir : String) : String :=
  pathJoin base_gcs_dir _OUTPUT_DIR

/-- `_get_model_from_successful_custom_job`: deserialize the estimator and
the rewrapper from the job's output directory and reapply the rewrapper. -/
def _get_model_from_successful_custom_job (st : Store) (job_dir : String) :
    Except PyErr Loaded :=
  match deserializeModel st
      (pathJoin (_generate_remote_job_output_path job_dir) _OUTPUT_ESTIMATOR_DIR) with
  | .error e => .error e
  | .ok model =>
    match deserializeRewrapper st
        (pathJoin (_generate_remote_job_output_path job_dir) _REWRAPPER_NAME) with
    | .error e => .error e
    | .ok rewrapper => .ok (.localModel (applyRewrapper rewrapper model))

/-- The name-qualification step of `_get_publisher_model_resource`: prepend
`publishers/google/models/` when the given name contains no `/`. -/
def qualifyPublisherModelName (short_model_name : String) : String :=
  if !strContains short_model_name "/" then
    "publishers/google/models/" ++ short_model_name
  else
    short_model_name

/-- `_get_publisher_model_resource`: qualify the name, then construct the
publisher-model resource; a bare `except:` converts every failure into the
invalid-Model-Garden-reference `ValueError`. -/
def _get_publisher_model_resource (env : FetchEnv) (short_model_name : String) :
    Except PyErr PublisherModel :=
  match env.resolvePublisher (qualifyPublisherModelName short_model_name) with
  | .ok p => .ok p
  | .error _ => .error (.valueError invalidModelGardenMsg)

/-- The tuned-model label pattern `re.match(r"(^[a-z]+-[a-z]+-[0-9]{3}$)", s)`:
lowercase letters, dash, lowercase letters, dash, exactly three digits. -/
def splitOnDash (l : List Char) : List (List Char) :=
  match l with
  | [] => [[]]
  | c :: rest =>
    if c == '-' then [] :: splitOnDash rest
    else
      match splitOnDash rest with
      | [] => [[c]]
      | g :: gs => (c :: g) :: gs

def isLowerAscii (c : Char) : Bool := 'a' ≤ c && c ≤ 'z'

def isDigitAscii (c : Char) : Bool := '0' ≤ c && c ≤ '9'

def tunedLabelMatch (s : String) : Bool :=
  match splitOnDash s.data with
  | [a, b, c] =>
    !a.isEmpty && a.all isLowerAscii && !b.isEmpty && b.all isLowerAscii &&
      c.length == 3 && c.all isDigitAscii
  | _ => false

/-- The tuned-model label scan of `from_pretrained`'s model branch: iterate
the labels in order; on a value matching the tuned-model pattern, map it to a
model id and attempt the publisher-model resolution and the Model Garden
handle construction, continuing with the next label on `ValueError` and
propagating any other exception; raise the not-from-Model-Garden `ValueError`
when the labels are exhausted. -/
def scanLabels (env : FetchEnv) (model_name : String) (vm : RegisteredModel) :
    List (String × String) → Except PyErr Loaded
  | [] => .error (.valueError (notModelGardenMsg model_name))
  | (_label_key, label_val) :: rest =>
    if tunedLabelMatch label_val then
      let short_model_id := env.getModelIdFromTuningId label_val
      match _get_publisher_model_resource env short_model_id with
      | .error (.valueError _) => scanLabels env model_name vm rest
      | .error e => .error e
      | .ok publisher_model =>
        match env.gardenFromPretrained short_model_id publisher_model (some vm) with
        | .error (.valueError _) => scanLabels env model_name vm rest
        | .error e => .error e
        | .ok h => .ok (.garden h)
    else
      scanLabels env model_name vm rest

/-- The registered-model retrieval of `from_pretrained`'s model branch:
derive the model file name from the container image URI, deserialize the
model and the rewrapper from the artifact URI, reapply the rewrapper in
place, return the model. -/
def registeredRetrieve (env : FetchEnv) (vm : RegisteredModel) :
    Except PyErr Loaded :=
  let artifact_uri := vm.uri
  match _get_model_file_from_image_uri vm.container_image_uri with
  | .error e => .error e
  | .ok model_file =>
    match deserializeModel env.store (pathJoin artifact_uri model_file) with
    | .error e => .error e
    | .ok model =>
      match deserializeRewrapper env.store (pathJoin artifact_uri _REWRAPPER_NAME) with
      | .error e => .error e
      | .ok rewrapper => .ok (.localModel (applyRewrapper rewrapper model))

/-- The `if model_name:` branch of `from_pretrained`: fetch the resource;
registered label exactly `"true"` takes the registered branch; an empty label
map raises the not-registered `ValueError`; otherwise the labels are scanned
for a tuned-model id. -/
def from_pretrained_model_branch (env : FetchEnv) (model_name : String) :
    Except PyErr Loaded :=
  match assocGet env.registry model_name with
  | none => .error .notFoundError
  | some vertex_model =>
    if assocGet vertex_model.labels "registered_by_vertex_ai" == some "true" then
      registeredRetrieve env vertex_model
    else if vertex_model.labels.isEmpty then
      .error (.valueError (notRegisteredMsg model_name))
    else
      scanLabels env model_name vertex_model vertex_model.labels

/-- The `if custom_job_name:` branch of `from_pretrained`: fetch the job,
verify its provenance label, block on the poll while the job is in a
pending state, then deserialize on success and raise otherwise. -/
def from_pretrained_job_branch (env : FetchEnv) (custom_job_name : String) :
    Except PyErr Loaded :=
  match assocGet env.jobs custom_job_name with
  | none => .error .notFoundError
  | some job =>
    match _verify_custom_job job with
    | .error e => .error e
    | .ok _ =>
      let job_dir := job.base_output_directory
      let job_state :=
        if _JOB_PENDING_STATES.contains job.state then
          env.pollFinalState custom_job_name
        else
          job.state
      if job_state == JobState.succeeded then
        _get_model_from_successful_custom_job env.store job_dir
      else
        .error (.valueError jobNotSucceededMsg)

/-- The `if foundation_model_name:` branch of `from_pretrained`. -/
def from_pretrained_foundation_branch (env : FetchEnv)
    (foundation_model_name : String) : Except PyErr Loaded :=
  match _get_publisher_model_resource env foundation_model_name with
  | .error e => .error e
  | .ok publisher_model =>
    match env.gardenFromPretrained foundation_model_name publisher_model none with
    | .error e => .error e
    | .ok h => .ok (.garden h)

/-- `_check_from_pretrained_passed_exactly_one_arg` over the `locals()`
dictionary of `from_pretrained`. -/
def _check_from_pretrained_passed_exactly_one_arg
    (fn_args : List (String × Option String)) : Except PyErr Unit :=
  let passed_args := (fn_args.filter (fun kv => !(kv.2 == none))).length
  if passed_args ≠ 1 then .error (.valueError exactlyOneMsg) else .ok ()

/-- The body of `from_pretrained` after the argument check: Python
truthiness selects the branch, and when the single passed argument is the
empty string no branch is taken and `None` is returned. -/
def from_pretrained_body (env : FetchEnv)
    (model_name custom_job_name foundation_model_name : Option String) :
    Except PyErr (Option Loaded) :=
  if pyStrTruthy model_name then
    match from_pretrained_model_branch env (model_name.getD "") with
    | .error e => .error e
    | .ok l => .ok (some l)
  else if pyStrTruthy custom_job_name then
    match from_pretrained_job_branch env (custom_job_name.getD "") with
    | .error e => .error e
    | .ok l => .ok (some l)
  else if pyStrTruthy foundation_model_name then
    match from_pretrained_foundation_branch env (foundation_model_name.getD "") with
    | .error e => .error e
    | .ok l => .ok (some l)
  else
    .ok none

/-- `from_pretrained`. -/
def from_pretrained (env : FetchEnv)
    (model_name custom_job_name foundation_model_name : Option String) :
    Except PyErr (Option Loaded) :=
  match _check_from_pretrained_passed_exactly_one_arg
      [("model_name", model_name), ("custom_job_name", custom_job_name),
       ("foundation_model_name", foundation_model_name)] with
  | .error e => .error e
  | .ok _ => from_pretrained_body env model_name custom_job_name foundation_model_name

/-! ## Specification-side definitions (from the claims' wording) -/

/-- The framework classification as the amended claim words it: module
prefix `sklearn`; module prefix `keras` or a tracking-metadata attribute;
`torch` occurring anywhere in the module name or a state-dict capability;
otherwise unsupported. -/
def classifyFrameworkSpec (m : ModelObj) : Option Framework :=
  if strStartsWith m.module "sklearn" then some .sklearn
  else if strStartsWith m.module "keras" || m.hasTrackingMetadata then some .tensorflow
  else if strContains m.module "torch" || m.hasStateDict then some .pytorch
  else none

/-- The framework classification exactly as the original claim words it,
with `torch` required to be a module-name prefix. -/
def classifyFrameworkClaimed (m : ModelObj) : Option Framework :=
  if strStartsWith m.module "sklearn" then some .sklearn
  else if strStartsWith m.module "keras" || m.hasTrackingMetadata then some .tensorflow
  else if strStartsWith m.module "torch" || m.hasStateDict then some .pytorch
  else none

/-- The label values that are tuned-model candidates, per the claim's
wording of the scan. -/
def candidateValues (vm : RegisteredModel) : List String :=
  (vm.labels.map Prod.snd).filter tunedLabelMatch

/-- One resolution attempt of the claim's scan: `none` when it fails (and
the scan moves on), `some` handle on success. -/
def resolveCandidate (env : FetchEnv) (vm : RegisteredModel) (v : String) :
    Option GardenHandle :=
  match _get_publisher_model_resource env (env.getModelIdFromTuningId v) with
  | .error _ => none
  | .ok p =>
    match env.gardenFromPretrained (env.getModelIdFromTuningId v) p (some vm) with
    | .ok h => some h
    | .error _ => none

/-- The claim's wording of the scan: the first candidate label value whose
resolution yields a handle wins; if none does, the not-from-Model-Garden
error is raised. -/
def scanSpecFn (env : FetchEnv) (model_name : String) (vm : RegisteredModel) :
    Except PyErr Loaded :=
  match (candidateValues vm).findSome? (resolveCandidate env vm) with
  | some h => .ok (.garden h)
  | none => .error (.valueError (notModelGardenMsg model_name))

/-! ## Concrete fixtures (used by witnesses and counterexamples) -/

/-- The environment in which the serializer and the remote service behave
faithfully (the round-trip law's assumption). -/
def faithfulEnv : Env := ⟨fun _ => true, true⟩

def emptyWorld : World := ⟨[], []⟩

def sklearnModelW : ModelObj := ⟨"sklearn.linear_model", false, false, 42, some 7⟩

def kerasModelW : ModelObj := ⟨"keras.engine", true, false, 43, some 8⟩

def torchModelW : ModelObj := ⟨"torch.nn.modules", false, true, 44, some 9⟩

def xtorchModelW : ModelObj := ⟨"xtorch", false, false, 45, none⟩

/-- A concrete fetch environment for witnesses. -/
def fetchEnvW : FetchEnv :=
  ⟨[], [], [],
   fun n => .ok ⟨n⟩,
   fun s => s,
   fun n p t => .ok ⟨n, p, t⟩,
   fun _ => .succeeded⟩

/-! ## Claim theorems -/

/-- C8: `register` called while no staging location is configured
(`None` or the falsy empty string) raises the configuration `ValueError`
and performs nothing else: the remote state and the model object are
unchanged and no unwrap, serialization or upload event occurs. -/
theorem claim_C8 (env : Env) (cfg : GlobalConfig) (m : ModelObj)
    (use_gpu : Bool) (uniq : String) (w : World)
    (h : pyStrTruthy cfg.staging_bucket = false) :
    register env cfg m use_gpu uniq w =
      ⟨.error (.valueError stagingBucketMsg), w, m, []⟩ := by
  simp [register, h]

theorem claim_C8_witness :
    pyStrTruthy (none : Option String) = false ∧
    register faithfulEnv ⟨none⟩ sklearnModelW false "t" emptyWorld =
      ⟨.error (.valueError stagingBucketMsg), emptyWorld, sklearnModelW, []⟩ :=
  ⟨rfl, claim_C8 faithfulEnv ⟨none⟩ sklearnModelW false "t" emptyWorld rfl⟩

/-- C4: `from_pretrained` with zero or with two-or-more non-null arguments
among the three selectors always raises the exactly-one `ValueError`; with
exactly one non-null argument the check passes and the body (the three
retrieval paths) is reached. -/
theorem claim_C4 (env : FetchEnv) (a b c : Option String) :
    ((([a, b, c].filter (fun o => !(o == none))).length ≠ 1 →
        from_pretrained env a b c = .error (.valueError exactlyOneMsg)))
    ∧ (([a, b, c].filter (fun o => !(o == none))).length = 1 →
        from_pretrained env a b c = from_pretrained_body env a b c) := by
  constructor <;> intro h <;>
    cases a <;> cases b <;> cases c <;>
    simp_all [from_pretrained, _check_from_pretrained_passed_exactly_one_arg]

theorem claim_C4_witness :
    (([none, none, none].filter (fun o : Option String => !(o == none))).length ≠ 1 ∧
      from_pretrained fetchEnvW none none none = .error (.valueError exactlyOneMsg))
    ∧ (([some "a", some "b", none].filter (fun o : Option String => !(o == none))).length ≠ 1 ∧
      from_pretrained fetchEnvW (some "a") (some "b") none = .error (.valueError exactlyOneMsg))
    ∧ (([some "text-bison", none, none].filter (fun o : Option String => !(o == none))).length = 1 ∧
      from_pretrained fetchEnvW (some "text-bison") none none =
        from_pretrained_body fetchEnvW (some "text-bison") none none) :=
  ⟨⟨by decide, (claim_C4 fetchEnvW none none none).1 (by decide)⟩,
   ⟨by decide, (claim_C4 fetchEnvW (some "a") (some "b") none).1 (by decide)⟩,
   ⟨by decide, (claim_C4 fetchEnvW (some "text-bison") none none).2 (by decide)⟩⟩

/-- C9: the foundation-model path qualifies a name without `/` with
`publishers/google/models/`, keeps a name with `/` as given, converts every
resolution failure (whatever the underlying exception) into the
invalid-Model-Garden-reference `ValueError`, and on success returns the
handle built from the resolved publisher model. -/
theorem claim_C9 (env : FetchEnv) (name : String) :
    (strContains name "/" = false →
      qualifyPublisherModelName name = "publishers/google/models/" ++ name)
    ∧ (strContains name "/" = true → qualifyPublisherModelName name = name)
    ∧ (∀ e, env.resolvePublisher (qualifyPublisherModelName name) = .error e →
        from_pretrained_foundation_branch env name =
          .error (.valueError invalidModelGardenMsg))
    ∧ (∀ p, env.resolvePublisher (qualifyPublisherModelName name) = .ok p →
        from_pretrained_foundation_branch env name =
          match env.gardenFromPretrained name p none with
          | .error e => .error e
          | .ok h => .ok (.garden h)) := by
  refine ⟨fun h => ?_, fun h => ?_, fun e he => ?_, fun p hp => ?_⟩
  · simp [qualifyPublisherModelName, h]
  · simp [qualifyPublisherModelName, h]
  · simp [from_pretrained_foundation_branch, _get_publisher_model_resource, he]
  · simp [from_pretrained_foundation_branch, _get_publisher_model_resource, hp]

/-- A fetch environment whose publisher-model resolution always fails with a
non-`ValueError` exception (exercises the bare-`except` conversion). -/
def failResolveEnvW : FetchEnv :=
  { fetchEnvW with resolvePublisher := fun _ => .error .remoteError }

theorem claim_C9_witness :
    (strContains "text-bison" "/" = false ∧
      qualifyPublisherModelName "text-bison" = "publishers/google/models/" ++ "text-bison")
    ∧ (failResolveEnvW.resolvePublisher
          (qualifyPublisherModelName "text-bison") = .error .remoteError ∧
        from_pretrained_foundation_branch failResolveEnvW "text-bison" =
          .error (.valueError invalidModelGardenMsg))
    ∧ (fetchEnvW.resolvePublisher (qualifyPublisherModelName "text-bison") =
          .ok ⟨"publishers/google/models/text-bison"⟩ ∧
        from_pretrained_foundation_branch fetchEnvW "text-bison" =
          match fetchEnvW.gardenFromPretrained "text-bison"
              ⟨"publishers/google/models/text-bison"⟩ none with
          | .error e => .error e
          | .ok h => .ok (.garden h)) :=
  ⟨⟨by decide, (claim_C9 fetchEnvW "text-bison").1 (by decide)⟩,
   ⟨rfl, (claim_C9 failResolveEnvW "text-bison").2.2.1 .remoteError rfl⟩,
   ⟨rfl, (claim_C9 fetchEnvW "text-bison").2.2.2 ⟨"publishers/google/models/text-bison"⟩ rfl⟩⟩
-- appended experiments for C3/C7
lemma _register_sklearn_model_no_valueError (env : Env) (m : ModelObj)
    (sb : String) (rw : Rewrapper) (uniq : String) (w : World) (msg : String) :
    (_register_sklearn_model env m sb rw uniq w).result ≠ .error (.valueError msg) := by
  simp only [_register_sklearn_model]
  split_ifs <;> simp

lemma _register_tf_model_no_valueError (env : Env) (m : ModelObj)
    (sb : String) (rw : Rewrapper) (use_gpu : Bool) (uniq : String) (w : World) (msg : String) :
    (_register_tf_model env m sb rw use_gpu uniq w).result ≠ .error (.valueError msg) := by
  simp only [_register_tf_model]
  split_ifs <;> simp

lemma _register_pytorch_model_no_valueError (env : Env) (m : ModelObj)
    (sb : String) (rw : Rewrapper) (use_gpu : Bool) (uniq : String) (w : World) (msg : String) :
    (_register_pytorch_model env m sb rw use_gpu uniq w).result ≠ .error (.valueError msg) := by
  simp only [_register_pytorch_model]
  split_ifs <;> simp

/-- amended C3 -/
theorem claim_C3_amended (env : Env) (cfg : GlobalConfig) (m : ModelObj)
    (use_gpu : Bool) (uniq : String) (w : World)
    (h : pyStrTruthy cfg.staging_bucket = true) :
    ((register env cfg m use_gpu uniq w).result = .error (.valueError uploadUnsupportedMsg)
      ↔ classifyFrameworkSpec m = none) := by
  simp only [register, h, Bool.not_true, Bool.false_eq_true, if_false]
  unfold registerDispatch classifyFrameworkSpec
  by_cases h1 : strStartsWith m.module "sklearn" <;>
    by_cases h2 : strStartsWith m.module "keras" <;>
    by_cases h3 : m.hasTrackingMetadata <;>
    by_cases h4 : strContains m.module "torch" <;>
    by_cases h5 : m.hasStateDict <;>
    simp [h1, h2, h3, h4, h5, _unwrapper,
      _register_sklearn_model_no_valueError, _register_tf_model_no_valueError,
      _register_pytorch_model_no_valueError]

theorem claim_C3_counterexample :
    classifyFrameworkClaimed xtorchModelW = none ∧
    (register faithfulEnv ⟨some "gs://bucket"⟩ xtorchModelW false "t" emptyWorld).result =
      .ok ⟨"vertex-ai-registered-pytorch-model-t",
           "gs://bucket/vertex-ai-registered-pytorch-model-t",
           "us-docker.pkg.dev/vertex-ai/prediction/pytorch-cpu.1-12:latest",
           [("registered_by_vertex_ai", "true")]⟩ :=
  ⟨rfl, rfl⟩

theorem claim_C3_amended_witness :
    pyStrTruthy (some "gs://bucket") = true ∧
    ((register faithfulEnv ⟨some "gs://bucket"⟩ xtorchModelW false "t" emptyWorld).result =
        .error (.valueError uploadUnsupportedMsg)
      ↔ classifyFrameworkSpec xtorchModelW = none) :=
  ⟨rfl, claim_C3_amended faithfulEnv ⟨some "gs://bucket"⟩ xtorchModelW false "t" emptyWorld rfl⟩

theorem claim_C7_counterexample :
    (register faithfulEnv ⟨some "gs://bucket"⟩ sklearnModelW true "t" emptyWorld).result =
      .ok ⟨"vertex-ai-registered-sklearn-model-t",
           "gs://bucket/vertex-ai-registered-sklearn-model-t",
           get_prebuilt_prediction_container_uri "sklearn" "1.0" "cpu",
           [("registered_by_vertex_ai", "true")]⟩
    ∧ get_prebuilt_prediction_container_uri "sklearn" "1.0" "cpu" ≠
        get_prebuilt_prediction_container_uri "sklearn" "1.0" "gpu" :=
  ⟨rfl, by decide⟩

/-- Conditions of the tensorflow branch, read off the classification. -/
lemma classify_tf_conds (m : ModelObj)
    (h : classifyFrameworkSpec m = some .tensorflow) :
    strStartsWith m.module "sklearn" = false ∧
    (strStartsWith m.module "keras" || m.hasTrackingMetadata) = true := by
  unfold classifyFrameworkSpec at h
  by_cases h1 : strStartsWith m.module "sklearn" <;>
    by_cases h2 : (strStartsWith m.module "keras" || m.hasTrackingMetadata) = true <;>
    simp_all

/-- Conditions of the pytorch branch, read off the classification. -/
lemma classify_pt_conds (m : ModelObj)
    (h : classifyFrameworkSpec m = some .pytorch) :
    strStartsWith m.module "sklearn" = false ∧
    (strStartsWith m.module "keras" || m.hasTrackingMetadata) = false ∧
    (strContains m.module "torch" || m.hasStateDict) = true := by
  unfold classifyFrameworkSpec at h
  by_cases h1 : strStartsWith m.module "sklearn" <;>
    by_cases h2 : (strStartsWith m.module "keras" || m.hasTrackingMetadata) = true <;>
    by_cases h3 : (strContains m.module "torch" || m.hasStateDict) = true <;>
    simp_all

/-- Conditions of the sklearn branch, read off the classification. -/
lemma classify_sk_conds (m : ModelObj)
    (h : classifyFrameworkSpec m = some .sklearn) :
    strStartsWith m.module "sklearn" = true := by
  unfold classifyFrameworkSpec at h
  by_cases h1 : strStartsWith m.module "sklearn" <;> simp_all
  split at h <;> simp_all

/-- C7 amended: the serving container is resolved with the version pinned
per framework, but the accelerator selector follows `use_gpu` only for
tensorflow and pytorch; the sklearn register path does not pass the
accelerator, so sklearn models always get the cpu image.  The sklearn
artifact URI is the fresh staging subdirectory
`<bucket>/vertex-ai-registered-sklearn-model-<ts>`. -/
theorem claim_C7_amended (env : Env) (m : ModelObj) (use_gpu : Bool)
    (uniq : String) (w : World)
    (hs : ∀ p, env.serializeOk p = true) (hu : env.uploadOk = true) :
    (strStartsWith m.module "sklearn" = true →
      ∃ rm, (register env ⟨some "gs://bucket"⟩ m use_gpu uniq w).result = .ok rm
        ∧ rm.container_image_uri =
            get_prebuilt_prediction_container_uri "sklearn" "1.0" "cpu"
        ∧ rm.name = "vertex-ai-registered-sklearn-model-" ++ uniq
        ∧ rm.uri = pathJoin "gs://bucket" ("vertex-ai-registered-sklearn-model-" ++ uniq))
    ∧ (classifyFrameworkSpec m = some .tensorflow →
      ∃ rm, (register env ⟨some "gs://bucket"⟩ m use_gpu uniq w).result = .ok rm
        ∧ rm.container_image_uri =
            get_prebuilt_prediction_container_uri "tensorflow" "2.11"
              (if use_gpu then "gpu" else "cpu"))
    ∧ (classifyFrameworkSpec m = some .pytorch →
      ∃ rm, (register env ⟨some "gs://bucket"⟩ m use_gpu uniq w).result = .ok rm
        ∧ rm.container_image_uri =
            get_prebuilt_prediction_container_uri "pytorch" "1.12"
              (if use_gpu then "gpu" else "cpu")) := by
  refine ⟨fun h1 => ?_, fun htf => ?_, fun hpt => ?_⟩
  · refine ⟨⟨"vertex-ai-registered-sklearn-model-" ++ uniq,
      pathJoin "gs://bucket" ("vertex-ai-registered-sklearn-model-" ++ uniq),
      get_prebuilt_prediction_container_uri "sklearn" "1.0" "cpu",
      [("registered_by_vertex_ai", "true")]⟩, ?_, rfl, rfl, rfl⟩
    simp +decide [register, registerDispatch, _register_sklearn_model, _unwrapper, pyStrTruthy, h1, hs, hu]
  · obtain ⟨h1, h2⟩ := classify_tf_conds m htf
    refine ⟨⟨"vertex-ai-registered-tensorflow-model-" ++ uniq,
      pathJoin (pathJoin "gs://bucket" ("vertex-ai-registered-tensorflow-model-" ++ uniq)) _TF_DIR_NAME,
      get_prebuilt_prediction_container_uri "tensorflow" "2.11" (if use_gpu then "gpu" else "cpu"),
      [("registered_by_vertex_ai", "true")]⟩, ?_, rfl⟩
    simp +decide [register, registerDispatch, _register_tf_model, _unwrapper, pyStrTruthy, h1, h2, hs, hu]
  · obtain ⟨h1, h2, h3⟩ := classify_pt_conds m hpt
    refine ⟨⟨"vertex-ai-registered-pytorch-model-" ++ uniq,
      pathJoin "gs://bucket" ("vertex-ai-registered-pytorch-model-" ++ uniq),
      get_prebuilt_prediction_container_uri "pytorch" "1.12" (if use_gpu then "gpu" else "cpu"),
      [("registered_by_vertex_ai", "true")]⟩, ?_, rfl⟩
    simp +decide [register, registerDispatch, _register_pytorch_model, _unwrapper, pyStrTruthy, h1, h2, h3, hs, hu]

theorem claim_C7_amended_witness :
    (∀ p, faithfulEnv.serializeOk p = true) ∧ faithfulEnv.uploadOk = true ∧
    (strStartsWith sklearnModelW.module "sklearn" = true ∧
      ∃ rm, (register faithfulEnv ⟨some "gs://bucket"⟩ sklearnModelW true "t" emptyWorld).result = .ok rm
        ∧ rm.container_image_uri = get_prebuilt_prediction_container_uri "sklearn" "1.0" "cpu"
        ∧ rm.name = "vertex-ai-registered-sklearn-model-" ++ "t"
        ∧ rm.uri = pathJoin "gs://bucket" ("vertex-ai-registered-sklearn-model-" ++ "t")) ∧
    (classifyFrameworkSpec kerasModelW = some .tensorflow ∧
      ∃ rm, (register faithfulEnv ⟨some "gs://bucket"⟩ kerasModelW true "t" emptyWorld).result = .ok rm
        ∧ rm.container_image_uri =
            get_prebuilt_prediction_container_uri "tensorflow" "2.11" (if true then "gpu" else "cpu")) :=
  ⟨fun _ => rfl, rfl,
   ⟨by decide,
    (claim_C7_amended faithfulEnv sklearnModelW true "t" emptyWorld (fun _ => rfl) rfl).1 (by decide)⟩,
   ⟨by decide,
    (claim_C7_amended faithfulEnv kerasModelW true "t" emptyWorld (fun _ => rfl) rfl).2.1 (by decide)⟩⟩

/-- Every event emitted by the sklearn register helper is a serialize or an
upload event. -/
lemma _register_sklearn_model_trace_events (env : Env) (m : ModelObj)
    (sb : String) (rw : Rewrapper) (uniq : String) (w : World) :
    ∀ e ∈ (_register_sklearn_model env m sb rw uniq w).trace,
      (∃ p, e = Event.serialize p) ∨ (∃ n, e = Event.upload n) := by
  intro e he
  simp only [_register_sklearn_model] at he
  split_ifs at he <;> simp at he <;>
    rcases he with rfl | rfl | rfl <;> simp

/-- Every event emitted by the tensorflow register helper is a serialize or
an upload event. -/
lemma _register_tf_model_trace_events (env : Env) (m : ModelObj)
    (sb : String) (rw : Rewrapper) (use_gpu : Bool) (uniq : String) (w : World) :
    ∀ e ∈ (_register_tf_model env m sb rw use_gpu uniq w).trace,
      (∃ p, e = Event.serialize p) ∨ (∃ n, e = Event.upload n) := by
  intro e he
  simp only [_register_tf_model] at he
  split_ifs at he <;> simp at he <;>
    rcases he with rfl | rfl | rfl <;> simp

/-- Every event emitted by the pytorch register helper is a serialize or an
upload event. -/
lemma _register_pytorch_model_trace_events (env : Env) (m : ModelObj)
    (sb : String) (rw : Rewrapper) (use_gpu : Bool) (uniq : String) (w : World) :
    ∀ e ∈ (_register_pytorch_model env m sb rw use_gpu uniq w).trace,
      (∃ p, e = Event.serialize p) ∨ (∃ n, e = Event.upload n) := by
  intro e he
  simp only [_register_pytorch_model] at he
  split_ifs at he <;> simp at he <;>
    rcases he with rfl | rfl | rfl <;> simp

/-- Every event emitted by the framework dispatch is a serialize or an
upload event: the dispatch itself neither unwraps nor rewraps. -/
lemma registerDispatch_trace_events (env : Env) (sb : String) (m : ModelObj)
    (rw : Rewrapper) (use_gpu : Bool) (uniq : String) (w : World) :
    ∀ e ∈ (registerDispatch env sb m rw use_gpu uniq w).trace,
      (∃ p, e = Event.serialize p) ∨ (∃ n, e = Event.upload n) := by
  intro e he
  unfold registerDispatch at he
  split_ifs at he
  · exact _register_sklearn_model_trace_events env m sb rw uniq w e he
  · exact _register_tf_model_trace_events env m sb rw use_gpu uniq w e he
  · exact _register_pytorch_model_trace_events env m sb rw use_gpu uniq w e he
  · simp at he

/-- C2: whenever the staging-bucket precondition holds, the trace of
`register` is exactly one unwrap, then the dispatch events (serializations
and the upload only), then exactly one rewrap — on every exit path,
successful or raising; the model object the caller ends up with is the
original (the wrapper has been reapplied); and the result — value or
exception — is exactly what the framework dispatch produced, so any
serializer or remote failure surfaces to the caller unmodified after the
rewrap. -/
theorem claim_C2 (env : Env) (cfg : GlobalConfig) (m : ModelObj)
    (use_gpu : Bool) (uniq : String) (w : World)
    (h : pyStrTruthy cfg.staging_bucket = true) :
    (∃ mid, (register env cfg m use_gpu uniq w).trace = .unwrap :: (mid ++ [.rewrap])
      ∧ ∀ e ∈ mid, e ≠ .unwrap ∧ e ≠ .rewrap)
    ∧ (register env cfg m use_gpu uniq w).model = m
    ∧ (register env cfg m use_gpu uniq w).result =
        (registerDispatch env (cfg.staging_bucket.getD "")
          { m with wrapper := none } ⟨m.wrapper⟩ use_gpu uniq w).result := by
  have hreg : register env cfg m use_gpu uniq w =
      ⟨(registerDispatch env (cfg.staging_bucket.getD "")
          { m with wrapper := none } ⟨m.wrapper⟩ use_gpu uniq w).result,
        (registerDispatch env (cfg.staging_bucket.getD "")
          { m with wrapper := none } ⟨m.wrapper⟩ use_gpu uniq w).world,
        m,
        .unwrap :: ((registerDispatch env (cfg.staging_bucket.getD "")
          { m with wrapper := none } ⟨m.wrapper⟩ use_gpu uniq w).trace ++ [.rewrap])⟩ := by
    unfold register
    rw [h]
    rfl
  refine ⟨⟨(registerDispatch env (cfg.staging_bucket.getD "")
      { m with wrapper := none } ⟨m.wrapper⟩ use_gpu uniq w).trace, ?_, ?_⟩, ?_, ?_⟩
  · rw [hreg]
  · intro e he
    rcases registerDispatch_trace_events env (cfg.staging_bucket.getD "")
        { m with wrapper := none } ⟨m.wrapper⟩ use_gpu uniq w e he with ⟨p, rfl⟩ | ⟨n, rfl⟩ <;>
      exact ⟨by simp, by simp⟩
  · rw [hreg]
  · rw [hreg]

/-- An environment whose serializer always fails, exercising the raising
exit path of `register` in the C2 witness. -/
def failingSerializerEnvW : Env := ⟨fun _ => false, false⟩

theorem claim_C2_witness :
    pyStrTruthy (some "gs://bucket") = true ∧
    ((∃ mid,
        (register failingSerializerEnvW ⟨some "gs://bucket"⟩ torchModelW false "t" emptyWorld).trace =
          .unwrap :: (mid ++ [.rewrap])
        ∧ ∀ e ∈ mid, e ≠ .unwrap ∧ e ≠ .rewrap)
      ∧ (register failingSerializerEnvW ⟨some "gs://bucket"⟩ torchModelW false "t" emptyWorld).model =
          torchModelW
      ∧ (register failingSerializerEnvW ⟨some "gs://bucket"⟩ torchModelW false "t" emptyWorld).result =
          (registerDispatch failingSerializerEnvW ((some "gs://bucket").getD "")
            { torchModelW with wrapper := none } ⟨torchModelW.wrapper⟩ false "t" emptyWorld).result) :=
  ⟨rfl, claim_C2 failingSerializerEnvW ⟨some "gs://bucket"⟩ torchModelW false "t" emptyWorld rfl⟩

/-- The provenance check of `_verify_custom_job` succeeds exactly when the
`trained_by_vertex_ai` label has the exact value `"true"`, and otherwise
raises the unverified-job `ValueError`. -/
lemma _verify_custom_job_cases (job : CustomJob) :
    (assocGet job.labels "trained_by_vertex_ai" = some "true" →
      _verify_custom_job job = .ok ())
    ∧ (assocGet job.labels "trained_by_vertex_ai" ≠ some "true" →
      _verify_custom_job job = .error (.valueError unverifiedJobMsg)) := by
  constructor <;> intro h
  · simp [_verify_custom_job, h, pyStrTruthy]
  · unfold _verify_custom_job
    cases hl : assocGet job.labels "trained_by_vertex_ai" with
    | none => simp [pyStrTruthy]
    | some s =>
      rw [hl] at h
      have hs : s ≠ "true" := fun hc => h (by rw [hc])
      simp [pyStrTruthy, hs]

/-- C6: the job-retrieval path verifies the `trained_by_vertex_ai=true`
label before any poll (the error is independent of the poll outcome, which
is universally quantified in the environment); a job in a pending/running
state has its terminal state observed through the blocking poll, otherwise
its current state is used; terminal state SUCCEEDED deserializes estimator
and rewrapper from the job's output directory and returns the rewrapped
model; any other terminal state raises the job-not-succeeded `ValueError`. -/
theorem claim_C6 (env : FetchEnv) (job_name : String) (job : CustomJob)
    (hfetch : assocGet env.jobs job_name = some job) :
    (assocGet job.labels "trained_by_vertex_ai" ≠ some "true" →
      from_pretrained_job_branch env job_name = .error (.valueError unverifiedJobMsg))
    ∧ (assocGet job.labels "trained_by_vertex_ai" = some "true" →
      ((if _JOB_PENDING_STATES.contains job.state then env.pollFinalState job_name
        else job.state) = .succeeded →
        from_pretrained_job_branch env job_name =
          _get_model_from_successful_custom_job env.store job.base_output_directory)
      ∧ ((if _JOB_PENDING_STATES.contains job.state then env.pollFinalState job_name
          else job.state) ≠ .succeeded →
        from_pretrained_job_branch env job_name = .error (.valueError jobNotSucceededMsg)))
    ∧ (∀ m rw,
        storeGet env.store (pathJoin (pathJoin job.base_output_directory _OUTPUT_DIR)
          _OUTPUT_ESTIMATOR_DIR) = some (.modelVal m) →
        storeGet env.store (pathJoin (pathJoin job.base_output_directory _OUTPUT_DIR)
          _REWRAPPER_NAME) = some (.rewrapperVal rw) →
        _get_model_from_successful_custom_job env.store job.base_output_directory =
          .ok (.localModel (applyRewrapper rw m))) := by
  refine ⟨fun h => ?_, fun h => ⟨fun hst => ?_, fun hst => ?_⟩, fun m rw hm hr => ?_⟩
  · simp [from_pretrained_job_branch, hfetch, (_verify_custom_job_cases job).2 h]
  · simp only [from_pretrained_job_branch, hfetch, (_verify_custom_job_cases job).1 h, hst]
    simp
  · simp only [from_pretrained_job_branch, hfetch, (_verify_custom_job_cases job).1 h]
    rw [if_neg (by simpa using hst)]
  · simp [_get_model_from_successful_custom_job, _generate_remote_job_output_path,
      deserializeModel, deserializeRewrapper, hm, hr]

/-- A pending job that the poll observes to succeed, with its artifacts in
the store, for the C6 witness. -/
def pendingJobW : CustomJob :=
  ⟨"job1", [("trained_by_vertex_ai", "true")], .running, "gs://bucket/custom_job"⟩

def jobFetchEnvW : FetchEnv :=
  { fetchEnvW with
    jobs := [("job1", pendingJobW)],
    store :=
      [(pathJoin (pathJoin "gs://bucket/custom_job" _OUTPUT_DIR) _OUTPUT_ESTIMATOR_DIR,
          .modelVal torchModelW),
       (pathJoin (pathJoin "gs://bucket/custom_job" _OUTPUT_DIR) _REWRAPPER_NAME,
          .rewrapperVal ⟨some 9⟩)] }

theorem claim_C6_witness :
    assocGet jobFetchEnvW.jobs "job1" = some pendingJobW ∧
    assocGet pendingJobW.labels "trained_by_vertex_ai" = some "true" ∧
    (if _JOB_PENDING_STATES.contains pendingJobW.state then jobFetchEnvW.pollFinalState "job1"
      else pendingJobW.state) = .succeeded ∧
    from_pretrained_job_branch jobFetchEnvW "job1" =
      _get_model_from_successful_custom_job jobFetchEnvW.store pendingJobW.base_output_directory ∧
    _get_model_from_successful_custom_job jobFetchEnvW.store pendingJobW.base_output_directory =
      .ok (.localModel (applyRewrapper ⟨some 9⟩ torchModelW)) :=
  ⟨rfl, rfl, rfl,
   ((claim_C6 jobFetchEnvW "job1" pendingJobW rfl).2.1 rfl).1 rfl,
   (claim_C6 jobFetchEnvW "job1" pendingJobW rfl).2.2 torchModelW ⟨some 9⟩ (by decide) (by decide)⟩

/-- `_get_publisher_model_resource` converts every failure of the underlying
resolution into the invalid-Model-Garden-reference `ValueError`. -/
lemma _get_publisher_model_resource_error (env : FetchEnv) (n : String) (e : PyErr)
    (h : _get_publisher_model_resource env n = .error e) :
    e = .valueError invalidModelGardenMsg := by
  unfold _get_publisher_model_resource at h
  cases henv : env.resolvePublisher (qualifyPublisherModelName n) <;>
    rw [henv] at h <;> simp_all

/-- The label scan equals its specification-side formulation: the first
matching label value whose resolution succeeds wins, and the
not-from-Model-Garden error is raised when none does — provided the Model
Garden constructor fails only with `ValueError`s (which is what the scan's
`except ValueError` continues on). -/
lemma scanLabels_eq_spec (env : FetchEnv) (model_name : String)
    (vm : RegisteredModel)
    (henv : ∀ n p t e, env.gardenFromPretrained n p t = .error e →
      ∃ msg, e = .valueError msg) :
    ∀ l, scanLabels env model_name vm l =
      match ((l.map Prod.snd).filter tunedLabelMatch).findSome?
          (resolveCandidate env vm) with
      | some h => .ok (.garden h)
      | none => .error (.valueError (notModelGardenMsg model_name)) := by
  intro l
  induction l with
  | nil => rfl
  | cons kv rest ih =>
    obtain ⟨k, v⟩ := kv
    by_cases hv : tunedLabelMatch v
    · cases hres : _get_publisher_model_resource env (env.getModelIdFromTuningId v) with
      | error e =>
        have he := _get_publisher_model_resource_error env _ e hres
        subst he
        simp [scanLabels, hv, hres, ih, resolveCandidate, List.findSome?_cons]
      | ok p =>
        cases hg : env.gardenFromPretrained (env.getModelIdFromTuningId v) p (some vm) with
        | ok hh =>
          simp [scanLabels, hv, hres, hg, resolveCandidate, List.findSome?_cons]
        | error e =>
          obtain ⟨msg, he⟩ := henv _ _ _ _ hg
          subst he
          simp [scanLabels, hv, hres, hg, ih, resolveCandidate, List.findSome?_cons]
    · simp [scanLabels, hv, ih, List.filter_cons, List.findSome?_cons]

/-- When no label value matches the tuned-model pattern the scan raises the
not-from-Model-Garden error. -/
lemma scanLabels_all_nomatch (env : FetchEnv) (model_name : String)
    (vm : RegisteredModel) :
    ∀ l, (∀ kv ∈ l, tunedLabelMatch kv.2 = false) →
      scanLabels env model_name vm l =
        .error (.valueError (notModelGardenMsg model_name)) := by
  intro l
  induction l with
  | nil => intro _; rfl
  | cons kv rest ih =>
    intro h
    obtain ⟨k, v⟩ := kv
    have hv := h (k, v) (List.mem_cons_self _ _)
    simp only [scanLabels, hv, Bool.false_eq_true, if_false]
    exact ih fun kv hkv => h kv (List.mem_cons_of_mem _ hkv)

/-- The only `ValueError` the scan itself can produce is the
not-from-Model-Garden error: candidate failures that are `ValueError`s are
swallowed by the `except ValueError: continue`, and other exceptions are not
`ValueError`s. -/
lemma scanLabels_valueError (env : FetchEnv) (model_name : String)
    (vm : RegisteredModel) :
    ∀ l s, scanLabels env model_name vm l = .error (.valueError s) →
      s = notModelGardenMsg model_name := by
  intro l
  induction l with
  | nil =>
    intro s h
    simp [scanLabels] at h
    exact h.symm
  | cons kv rest ih =>
    intro s h
    obtain ⟨k, v⟩ := kv
    by_cases hv : tunedLabelMatch v
    · cases hres : _get_publisher_model_resource env (env.getModelIdFromTuningId v) with
      | error e =>
        have he := _get_publisher_model_resource_error env _ e hres
        subst he
        simp only [scanLabels, hv, if_true, hres] at h
        exact ih s h
      | ok p =>
        cases hg : env.gardenFromPretrained (env.getModelIdFromTuningId v) p (some vm) with
        | ok hh => simp [scanLabels, hv, hres, hg] at h
        | error e =>
          cases e with
          | valueError msg =>
            simp only [scanLabels, hv, if_true, hres, hg] at h
            exact ih s h
          | serializerError => simp [scanLabels, hv, hres, hg] at h
          | remoteError => simp [scanLabels, hv, hres, hg] at h
          | notFoundError => simp [scanLabels, hv, hres, hg] at h
          | typeMismatchError => simp [scanLabels, hv, hres, hg] at h
    · simp only [scanLabels, hv, Bool.false_eq_true, if_false] at h
      exact ih s h

/-- The two provenance error messages of the model branch differ. -/
lemma notRegisteredMsg_ne_notModelGardenMsg (n : String) :
    notRegisteredMsg n ≠ notModelGardenMsg n := by
  intro h
  have hlen := congrArg String.length h
  simp [notRegisteredMsg, notModelGardenMsg, String.length_append] at hlen
  exact absurd hlen (by decide)

/-- C5: dispatch of the registered-model retrieval.  The model-file name is
derived from the container image URI by substring checks in source order
(`tf` gives the empty name i.e. the whole artifact directory, then
`sklearn` gives `model.pkl`, then `pytorch` gives `model.mar`, anything
else raises the unsupported `ValueError`); under the
`registered_by_vertex_ai=true` label the model and rewrapper are
deserialized from the artifact URI and the rewrapped model is returned
(an unsupported image URI surfaces as the raised error); a resource with no
labels at all raises the not-registered `ValueError`; any other label map is
scanned for tuned-model ids with per-candidate failure tolerance, falling
back to the not-from-Model-Garden `ValueError`. -/
theorem claim_C5 (env : FetchEnv) (model_name : String) (vm : RegisteredModel)
    (hfetch : assocGet env.registry model_name = some vm)
    (henv : ∀ n p t e, env.gardenFromPretrained n p t = .error e →
      ∃ msg, e = .valueError msg) :
    (∀ uri, strContains uri "tf" = true →
      _get_model_file_from_image_uri uri = .ok "")
    ∧ (∀ uri, strContains uri "tf" = false → strContains uri "sklearn" = true →
      _get_model_file_from_image_uri uri = .ok _SKLEARN_FILE_NAME)
    ∧ (∀ uri, strContains uri "tf" = false → strContains uri "sklearn" = false →
      strContains uri "pytorch" = true →
      _get_model_file_from_image_uri uri = .ok _PYTORCH_FILE_NAME)
    ∧ (∀ uri, strContains uri "tf" = false → strContains uri "sklearn" = false →
      strContains uri "pytorch" = false →
      _get_model_file_from_image_uri uri = .error (.valueError loadUnsupportedMsg))
    ∧ (assocGet vm.labels "registered_by_vertex_ai" = some "true" →
      (∀ model_file model rw,
        _get_model_file_from_image_uri vm.container_image_uri = .ok model_file →
        storeGet env.store (pathJoin vm.uri model_file) = some (.modelVal model) →
        storeGet env.store (pathJoin vm.uri _REWRAPPER_NAME) = some (.rewrapperVal rw) →
        from_pretrained_model_branch env model_name =
          .ok (.localModel (applyRewrapper rw model)))
      ∧ (∀ e, _get_model_file_from_image_uri vm.container_image_uri = .error e →
        from_pretrained_model_branch env model_name = .error e))
    ∧ (vm.labels = [] →
      from_pretrained_model_branch env model_name =
        .error (.valueError (notRegisteredMsg model_name)))
    ∧ (assocGet vm.labels "registered_by_vertex_ai" ≠ some "true" → vm.labels ≠ [] →
      from_pretrained_model_branch env model_name =
        match ((vm.labels.map Prod.snd).filter tunedLabelMatch).findSome?
            (resolveCandidate env vm) with
        | some h => .ok (.garden h)
        | none => .error (.valueError (notModelGardenMsg model_name))) := by
  refine ⟨fun uri h1 => ?_, fun uri h1 h2 => ?_, fun uri h1 h2 h3 => ?_,
    fun uri h1 h2 h3 => ?_, fun htrue => ⟨fun model_file model rw hf hm hr => ?_, fun e hf => ?_⟩,
    fun hempty => ?_, fun htrue hne => ?_⟩
  · simp [_get_model_file_from_image_uri, h1]
  · simp [_get_model_file_from_image_uri, h1, h2]
  · simp [_get_model_file_from_image_uri, h1, h2, h3]
  · simp [_get_model_file_from_image_uri, h1, h2, h3]
  · simp [from_pretrained_model_branch, hfetch, htrue, registeredRetrieve, hf,
      deserializeModel, deserializeRewrapper, hm, hr]
  · simp [from_pretrained_model_branch, hfetch, htrue, registeredRetrieve, hf]
  · simp [from_pretrained_model_branch, hfetch, hempty, assocGet]
  · have hlab : (assocGet vm.labels "registered_by_vertex_ai" == some "true") = false := by
      cases hl : assocGet vm.labels "registered_by_vertex_ai" with
      | none => rfl
      | some s =>
        rw [hl] at htrue
        have hs : s ≠ "true" := fun hc => htrue (by rw [hc])
        simp [hs]
    have hne' : vm.labels.isEmpty = false := by
      cases hl : vm.labels with
      | nil => exact absurd hl hne
      | cons a l => rfl
    simp only [from_pretrained_model_branch, hfetch, hlab, Bool.false_eq_true, if_false, hne']
    exact scanLabels_eq_spec env model_name vm henv vm.labels

/-- A registered sklearn model resource and an environment serving it, with
its artifacts in the store, for the C5 witness. -/
def regModelW : RegisteredModel :=
  ⟨"m1", "gs://bucket/dir",
   "us-docker.pkg.dev/vertex-ai/prediction/sklearn-cpu.1-0:latest",
   [("registered_by_vertex_ai", "true")]⟩

def regRetrieveEnvW : FetchEnv :=
  { fetchEnvW with
    registry := [("m1", regModelW)],
    store :=
      [(pathJoin "gs://bucket/dir" "model.pkl", .modelVal sklearnModelW),
       (pathJoin "gs://bucket/dir" "rewrapper", .rewrapperVal ⟨some 7⟩)] }

lemma regRetrieveEnvW_garden_ok :
    ∀ (n : String) (p : PublisherModel) (t : Option RegisteredModel) (e : PyErr),
      regRetrieveEnvW.gardenFromPretrained n p t = .error e →
      ∃ msg, e = .valueError msg :=
  fun _ _ _ _ h => Except.noConfusion h

theorem claim_C5_witness :
    assocGet regRetrieveEnvW.registry "m1" = some regModelW ∧
    assocGet regModelW.labels "registered_by_vertex_ai" = some "true" ∧
    _get_model_file_from_image_uri regModelW.container_image_uri = .ok "model.pkl" ∧
    from_pretrained_model_branch regRetrieveEnvW "m1" =
      .ok (.localModel (applyRewrapper ⟨some 7⟩ sklearnModelW)) :=
  ⟨rfl, rfl, by decide,
   ((claim_C5 regRetrieveEnvW "m1" regModelW rfl regRetrieveEnvW_garden_ok).2.2.2.2.1
     rfl).1 "model.pkl" sklearnModelW ⟨some 7⟩ (by decide) (by decide) (by decide)⟩

/-- C10: a non-empty label map whose `registered_by_vertex_ai` value is
anything other than the exact string `"true"` does not take the registered
branch and does not raise the not-registered error: the labels are scanned
for tuned-model ids, with the not-from-Model-Garden error when no label
value matches the pattern. -/
theorem claim_C10 (env : FetchEnv) (model_name : String) (vm : RegisteredModel)
    (v : String)
    (hfetch : assocGet env.registry model_name = some vm)
    (hne : vm.labels ≠ [])
    (hlab : assocGet vm.labels "registered_by_vertex_ai" = some v)
    (hv : v ≠ "true") :
    from_pretrained_model_branch env model_name = scanLabels env model_name vm vm.labels
    ∧ ((∀ kv ∈ vm.labels, tunedLabelMatch kv.2 = false) →
        from_pretrained_model_branch env model_name =
          .error (.valueError (notModelGardenMsg model_name)))
    ∧ from_pretrained_model_branch env model_name ≠
        .error (.valueError (notRegisteredMsg model_name)) := by
  have hbeq : (assocGet vm.labels "registered_by_vertex_ai" == some "true") = false := by
    simp [hlab, hv]
  have hne' : vm.labels.isEmpty = false := by
    cases hl : vm.labels with
    | nil => exact absurd hl hne
    | cons a l => rfl
  have hmain : from_pretrained_model_branch env model_name =
      scanLabels env model_name vm vm.labels := by
    simp [from_pretrained_model_branch, hfetch, hbeq, hne']
  refine ⟨hmain, fun hall => ?_, fun hcon => ?_⟩
  · rw [hmain]
    exact scanLabels_all_nomatch env model_name vm vm.labels hall
  · rw [hmain] at hcon
    exact notRegisteredMsg_ne_notModelGardenMsg model_name
      (scanLabels_valueError env model_name vm vm.labels _ hcon)

/-- A model resource whose registered label reads `"false"`, for the C10
witness. -/
def falseLabelModelW : RegisteredModel :=
  ⟨"m2", "gs://bucket/dir2",
   "us-docker.pkg.dev/vertex-ai/prediction/sklearn-cpu.1-0:latest",
   [("registered_by_vertex_ai", "false")]⟩

def falseLabelEnvW : FetchEnv :=
  { fetchEnvW with registry := [("m2", falseLabelModelW)] }

theorem claim_C10_witness :
    assocGet falseLabelEnvW.registry "m2" = some falseLabelModelW ∧
    falseLabelModelW.labels ≠ [] ∧
    assocGet falseLabelModelW.labels "registered_by_vertex_ai" = some "false" ∧
    "false" ≠ "true" ∧
    from_pretrained_model_branch falseLabelEnvW "m2" =
      .error (.valueError (notModelGardenMsg "m2")) :=
  ⟨rfl, by decide, rfl, by decide,
   (claim_C10 falseLabelEnvW "m2" falseLabelModelW "false" rfl (by decide) rfl
     (by decide)).2.1 (by decide)⟩

/-- C1: the round-trip law.  For every model of one of the three supported
frameworks, under the faithful environment (serializer inverts and the
remote service stores resources faithfully), `register` succeeds with a
resource labelled `registered_by_vertex_ai=true`, and `from_pretrained` on
the returned resource name takes the registered branch, reads back exactly
the artifact paths `register` wrote (sklearn: `model.pkl` with sibling
rewrapper; tensorflow: the `saved_model` directory with the rewrapper nested
inside it; pytorch: `model.mar` with sibling rewrapper), and returns a model
structurally equal to the original. -/
theorem claim_C1 (m : ModelObj) (fw : Framework) (use_gpu : Bool) (w : World)
    (e0 : FetchEnv) (hm : classifyFrameworkSpec m = some fw) :
    ∃ rm : RegisteredModel,
      (register faithfulEnv ⟨some "gs://bucket"⟩ m use_gpu "ts1" w).result = .ok rm
      ∧ assocGet rm.labels "registered_by_vertex_ai" = some "true"
      ∧ from_pretrained
          { e0 with
            registry := (register faithfulEnv ⟨some "gs://bucket"⟩ m use_gpu "ts1" w).world.registry,
            store := (register faithfulEnv ⟨some "gs://bucket"⟩ m use_gpu "ts1" w).world.store }
          (some rm.name) none none
        = .ok (some (.localModel m)) := by
  cases fw with
  | sklearn =>
    have h1 := classify_sk_conds m hm
    refine ⟨⟨"vertex-ai-registered-sklearn-model-ts1",
      "gs://bucket/vertex-ai-registered-sklearn-model-ts1",
      get_prebuilt_prediction_container_uri "sklearn" "1.0" "cpu",
      [("registered_by_vertex_ai", "true")]⟩, ?_, rfl, ?_⟩
    · simp only [register, registerDispatch, _unwrapper, h1]
      rfl
    · simp only [register, registerDispatch, _unwrapper, h1]
      rfl
  | tensorflow =>
    obtain ⟨h1, h2⟩ := classify_tf_conds m hm
    cases use_gpu with
    | false =>
      refine ⟨⟨"vertex-ai-registered-tensorflow-model-ts1",
        "gs://bucket/vertex-ai-registered-tensorflow-model-ts1/saved_model",
        get_prebuilt_prediction_container_uri "tensorflow" "2.11" "cpu",
        [("registered_by_vertex_ai", "true")]⟩, ?_, rfl, ?_⟩
      · simp only [register, registerDispatch, _unwrapper, h1, h2]
        rfl
      · simp only [register, registerDispatch, _unwrapper, h1, h2]
        rfl
    | true =>
      refine ⟨⟨"vertex-ai-registered-tensorflow-model-ts1",
        "gs://bucket/vertex-ai-registered-tensorflow-model-ts1/saved_model",
        get_prebuilt_prediction_container_uri "tensorflow" "2.11" "gpu",
        [("registered_by_vertex_ai", "true")]⟩, ?_, rfl, ?_⟩
      · simp only [register, registerDispatch, _unwrapper, h1, h2]
        rfl
      · simp only [register, registerDispatch, _unwrapper, h1, h2]
        rfl
  | pytorch =>
    obtain ⟨h1, h2, h3⟩ := classify_pt_conds m hm
    cases use_gpu with
    | false =>
      refine ⟨⟨"vertex-ai-registered-pytorch-model-ts1",
        "gs://bucket/vertex-ai-registered-pytorch-model-ts1",
        get_prebuilt_prediction_container_uri "pytorch" "1.12" "cpu",
        [("registered_by_vertex_ai", "true")]⟩, ?_, rfl, ?_⟩
      · simp only [register, registerDispatch, _unwrapper, h1, h2, h3]
        rfl
      · simp only [register, registerDispatch, _unwrapper, h1, h2, h3]
        rfl
    | true =>
      refine ⟨⟨"vertex-ai-registered-pytorch-model-ts1",
        "gs://bucket/vertex-ai-registered-pytorch-model-ts1",
        get_prebuilt_prediction_container_uri "pytorch" "1.12" "gpu",
        [("registered_by_vertex_ai", "true")]⟩, ?_, rfl, ?_⟩
      · simp only [register, registerDispatch, _unwrapper, h1, h2, h3]
        rfl
      · simp only [register, registerDispatch, _unwrapper, h1, h2, h3]
        rfl

theorem claim_C1_witness :
    classifyFrameworkSpec sklearnModelW = some .sklearn ∧
    (∃ rm : RegisteredModel,
      (register faithfulEnv ⟨some "gs://bucket"⟩ sklearnModelW false "ts1" emptyWorld).result = .ok rm
      ∧ assocGet rm.labels "registered_by_vertex_ai" = some "true"
      ∧ from_pretrained
          { fetchEnvW with
            registry := (register faithfulEnv ⟨some "gs://bucket"⟩ sklearnModelW false "ts1" emptyWorld).world.registry,
            store := (register faithfulEnv ⟨some "gs://bucket"⟩ sklearnModelW false "ts1" emptyWorld).world.store }
          (some rm.name) none none
        = .ok (some (.localModel sklearnModelW))) :=
  ⟨by decide, claim_C1 sklearnModelW .sklearn false emptyWorld fetchEnvW (by decide)⟩
